import Mathlib

/-
Shallow embedding of the tiered object-storage client in
`sdk/src/machine/objectstore.rs` (rust-recall), together with proofs about
its range parsing (`parse_range`), its write path (`ObjectStore::add` and
`ObjectStore::upload`), and its read path (`ObjectStore::get`).

Machine integers (`u64`, `usize`) are modelled as `Nat` with explicit
underflow tracking where the source performs unguarded subtraction.
Display-only progress bars are not modelled; every externally visible call
(blob ingest, staging announce, signing, broadcast, size query, download,
sink writes) is recorded in an ordered effect trace.
-/

set_option maxHeartbeats 1000000
set_option maxRecDepth 100000

namespace RustRecall

/-- `MAX_INTERNAL_OBJECT_LENGTH` from `objectstore.rs`: the inline threshold
in bytes. -/
def MAX_INTERNAL_OBJECT_LENGTH : Nat := 1024

/-- Exclusive upper bound of Rust `u64`. -/
def U64_BOUND : Nat := 2 ^ 64

/-- Rust's `"".split('-')` style splitting of a character list on `'-'`.
Mirrors `range.split('-').collect::<Vec<String>>()`: splitting the empty
string yields one empty piece, and every separator starts a new piece. -/
def splitOnDash (cs : List Char) : List (List Char) :=
  match cs with
  | [] => [[]]
  | c :: rest =>
    if c = '-' then [] :: splitOnDash rest
    else
      match splitOnDash rest with
      | [] => [[c]]
      | t :: ts => (c :: t) :: ts

/-- Model of `str::parse::<u64>()`: an optional leading `+`, then a nonempty
run of ASCII digits whose value fits in `u64`; anything else is a
`ParseIntError`. -/
def parseU64 (cs : List Char) : Option Nat :=
  let t := match cs with
    | '+' :: rest => rest
    | _ => cs
  if t.isEmpty then none
  else if t.all Char.isDigit then
    let n := t.foldl (fun a c => a * 10 + (c.toNat - 48)) 0
    if n < U64_BOUND then some n else none
  else none

/-- Rust `u64` subtraction with the underflowing case made explicit:
`some (a - b)` when `b ≤ a`, otherwise `none`. In the source the
underflowing case is an unguarded `a - b`, which panics in debug builds and
wraps in release builds: either way it is not a typed error return. -/
def checkedSub (a b : Nat) : Option Nat :=
  if b ≤ a then some (a - b) else none

/-- Failure outcomes of `parse_range`. `invalidFormat` and `invalidRange`
are the two `anyhow!` errors of the source; `parseFailure` is a propagated
`ParseIntError` from `?`; `underflow` marks an unguarded `u64` subtraction
below zero (a panic / wraparound, not a typed error, in the source). -/
inductive RangeError
  | invalidFormat
  | parseFailure
  | invalidRange
  | underflow
deriving DecidableEq, Repr

/-- The four-way `match (!range[0].is_empty(), !range[1].is_empty())` body of
`parse_range`, producing the raw `(start, end)` pair before the final bounds
check. The source computes `size - 1` (and `size - last`) with unguarded
`u64` arithmetic; `checkedSub` surfaces the underflowing case. -/
def rangeStartEnd (p0 p1 : List Char) (size : Nat) :
    Except RangeError (Nat × Nat) :=
  match p0.isEmpty, p1.isEmpty with
  | false, false =>
    match parseU64 p0, parseU64 p1 with
    | some a, some b => Except.ok (a, b)
    | _, _ => Except.error RangeError.parseFailure
  | false, true =>
    match parseU64 p0 with
    | some a =>
      match checkedSub size 1 with
      | some e => Except.ok (a, e)
      | none => Except.error RangeError.underflow
    | none => Except.error RangeError.parseFailure
  | true, false =>
    match parseU64 p1 with
    | some last =>
      if size < last then
        match checkedSub size 1 with
        | some e => Except.ok (0, e)
        | none => Except.error RangeError.underflow
      else
        match checkedSub size last, checkedSub size 1 with
        | some s, some e => Except.ok (s, e)
        | _, none => Except.error RangeError.underflow
        | none, _ => Except.error RangeError.underflow
    | none => Except.error RangeError.parseFailure
  | true, true =>
    match checkedSub size 1 with
    | some e => Except.ok (0, e)
    | none => Except.error RangeError.underflow

/-- The final bounds check of `parse_range`: reject with `invalid range`
when `start > end || end >= size`, otherwise return the pair. -/
def rangeFinalize (size : Nat) (r : Except RangeError (Nat × Nat)) :
    Except RangeError (Nat × Nat) :=
  match r with
  | Except.ok (s, e) =>
    if s > e ∨ e ≥ size then Except.error RangeError.invalidRange
    else Except.ok (s, e)
  | Except.error err => Except.error err

/-- Model of `parse_range(range, size)` from `objectstore.rs`: split the spec
on `'-'`, require exactly two pieces (`invalid range format` otherwise),
compute the raw pair for the four emptiness cases, then apply the final
bounds check. -/
def parse_range (range : String) (size : Nat) : Except RangeError (Nat × Nat) :=
  match splitOnDash range.data with
  | [p0, p1] => rangeFinalize size (rangeStartEnd p0 p1 size)
  | _ => Except.error RangeError.invalidFormat

example : parse_range "0-99" 1000 = Except.ok (0, 99) := by rfl
example : parse_range "100-" 1000 = Except.ok (100, 999) := by rfl
example : parse_range "-100" 1000 = Except.ok (900, 999) := by rfl
example : parse_range "-2000" 1000 = Except.ok (0, 999) := by rfl
example : parse_range "-" 1000 = Except.ok (0, 999) := by rfl
example : parse_range "" 1000 = Except.error RangeError.invalidFormat := by rfl
example : parse_range "500-100" 1000 = Except.error RangeError.invalidRange := by rfl
example : parse_range "-0" 1000 = Except.error RangeError.invalidRange := by rfl
example : parse_range "a-b" 1000 = Except.error RangeError.parseFailure := by rfl
example : parse_range "1-2-3" 1000 = Except.error RangeError.invalidFormat := by rfl
example : parse_range "-" 0 = Except.error RangeError.underflow := by rfl

/-- Self-describing content identifier, as built by `add`:
`Cid::new_v1(0x55, Multihash::wrap(Code::Blake3_256, hash))` — a codec tag,
a hash-function tag, and the digest bytes. -/
structure CidM where
  codec : Nat
  hashFn : Nat
  digest : List Nat
deriving DecidableEq, Repr

/-- The CID `add` derives from the iroh ingest hash: raw-binary codec
`0x55`, Blake3-256 multihash tag `0x1e`. -/
def cidOf (digest : List Nat) : CidM := ⟨0x55, 0x1e, digest⟩

/-- `fendermint_actor_objectstore::ObjectKind`: the tier-specific payload
placed in `PutParams.kind`. -/
inductive ObjectKindM
  | internal (bytes : List Nat)
  | external (cid : CidM)
deriving DecidableEq, Repr

/-- A seekable byte source (the `R : AsyncRead + AsyncSeek` argument of
`add`): the underlying bytes plus the current read position. -/
structure Reader where
  data : List Nat
  pos : Nat
deriving DecidableEq, Repr

/-- One `reader.read(&mut buf)` into a buffer of `n` bytes: returns the
bytes read (at most `n`; fewer only at end of stream) and the advanced
reader. -/
def readerRead (r : Reader) (n : Nat) : List Nat × Reader :=
  let chunk := (r.data.drop r.pos).take n
  (chunk, ⟨r.data, r.pos + chunk.length⟩)

/-- `reader.rewind()`: seek to the start of the stream (absolute position
0), regardless of where the stream stood when `add` was called. -/
def readerRewind (r : Reader) : Reader := ⟨r.data, 0⟩

/-- `iroh::blobs::provider::AddProgress`: the ingest-progress events the
blob node emits while consuming the object stream. -/
inductive AddProgress
  | found (id : Nat) (nm : String) (size : Nat)
  | progress (id : Nat) (offset : Nat)
  | done (id : Nat) (hash : List Nat)
  | allDone (hash : List Nat)
  | abort (reason : String)
deriving DecidableEq, Repr

/-- Failure outcomes of `add`. `emptyObject` is `cannot add empty object`;
`unexpectedEnd` is `Unexpected end while ingesting data`; `streamError` is
an `Err` item from the progress stream (propagated by `event?`);
`uploadAborted` is `AddProgress::Abort`; `barPanic` models the `.unwrap()`
panic on an absent progress bar; `noSubnetId` is
`failed to get subnet ID from signer`. -/
inductive AddError
  | emptyObject
  | unexpectedEnd
  | streamError (e : String)
  | uploadAborted (reason : String)
  | barPanic
  | noSubnetId
deriving DecidableEq, Repr

/-- Result of the ingest loop: the recorded `object_size` and the final
hash, or a failure. -/
inductive IngestOutcome
  | success (size : Nat) (hash : List Nat)
  | failure (e : AddError)
deriving DecidableEq, Repr

/-- The `loop` in the detached branch of `add`: consume progress events in
order, tracking whether a progress bar exists (`pro_bar`, initially absent)
and the recorded `object_size` (initially 0). `Found` records the size and
creates the bar; `Done` takes the bar (panicking if absent); `AllDone`
breaks with the hash; `Progress` touches the bar (panicking if absent);
`Abort` returns the error; a stream `Err` propagates; stream end without
`AllDone` bails. -/
def ingestLoop : List (Except String AddProgress) → Bool → Nat → IngestOutcome
  | [], _, _ => IngestOutcome.failure AddError.unexpectedEnd
  | Except.error e :: _, _, _ => IngestOutcome.failure (AddError.streamError e)
  | Except.ok ev :: rest, bar, sz =>
    match ev with
    | AddProgress.found _ _ s => ingestLoop rest true s
    | AddProgress.done _ _ =>
      if bar then ingestLoop rest false sz
      else IngestOutcome.failure AddError.barPanic
    | AddProgress.allDone h => IngestOutcome.success sz h
    | AddProgress.progress _ _ =>
      if bar then ingestLoop rest bar sz
      else IngestOutcome.failure AddError.barPanic
    | AddProgress.abort reason =>
      IngestOutcome.failure (AddError.uploadAborted reason)

/-- The externally visible calls `add` makes, in program order. Progress-bar
rendering is display-only and not recorded. `irohAddReader` is
`blobs().add_reader(reader, ..)` carrying the bytes the blob node will
consume (the stream from its current position); `signUploadMsg` is the
`signer.sign_message` of the transaction pre-image inside `upload`;
`announce` is `provider.upload(cid, node_addr, size, auth_b64, chain_id)`
(the peer address, base64 pre-image and chain id are opaque here and not
carried as values); `signTx` is `signer.transaction` for `PutObject`;
`broadcastTx` is `provider.perform` broadcasting the signed `PutObject`. -/
inductive AddEffect
  | irohAddReader (bytes : List Nat)
  | signUploadMsg (key : String) (cid : CidM)
  | announce (cid : CidM) (size : Nat)
  | signTx (key : String) (kind : ObjectKindM)
  | broadcastTx (key : String) (kind : ObjectKindM)
deriving DecidableEq, Repr

/-- Model of `ObjectStore::upload`: serialize the external `PutParams`, sign
the pre-image message, require a subnet id from the signer (error
otherwise), then announce `(cid, node_addr, size, auth_b64, chain_id)` to
the staging Object API. Returns the outcome and the calls made. -/
def upload (hasSubnetId : Bool) (key : String) (cid : CidM) (size : Nat) :
    Except AddError Unit × List AddEffect :=
  if hasSubnetId then
    (Except.ok (), [AddEffect.signUploadMsg key cid, AddEffect.announce cid size])
  else
    (Except.error AddError.noSubnetId, [AddEffect.signUploadMsg key cid])

/-- Model of `ObjectStore::add`. Inputs: the seekable reader, the key, the
ingest-progress events the blob node will emit on the detached path, and
whether the signer has a subnet id. The sample buffer holds
`MAX_INTERNAL_OBJECT_LENGTH + 1` bytes; zero bytes sampled is
`emptyObject`; the reader is then rewound (to position 0). A sample longer
than the threshold takes the detached path (blob ingest, then `upload`,
then sign and broadcast `PutParams {key, External(cid), ..}`); otherwise
the truncated sample itself is signed and broadcast as
`PutParams {key, Internal(sample), ..}`. On success the value is the
submitted `PutParams.kind`. -/
def add (reader : Reader) (key : String)
    (events : List (Except String AddProgress)) (hasSubnetId : Bool) :
    Except AddError ObjectKindM × List AddEffect :=
  let sr := readerRead reader (MAX_INTERNAL_OBJECT_LENGTH + 1)
  let sample := sr.1
  let sampled := sample.length
  if sampled = 0 then (Except.error AddError.emptyObject, [])
  else
    let reader2 := readerRewind sr.2
    if MAX_INTERNAL_OBJECT_LENGTH < sampled then
      let ingested := reader2.data.drop reader2.pos
      match ingestLoop events false 0 with
      | IngestOutcome.failure e =>
        (Except.error e, [AddEffect.irohAddReader ingested])
      | IngestOutcome.success objectSize hash =>
        let cid := cidOf hash
        let up := upload hasSubnetId key cid objectSize
        match up.1 with
        | Except.error e =>
          (Except.error e, AddEffect.irohAddReader ingested :: up.2)
        | Except.ok _ =>
          (Except.ok (ObjectKindM.external cid),
           AddEffect.irohAddReader ingested :: up.2 ++
             [AddEffect.signTx key (ObjectKindM.external cid),
              AddEffect.broadcastTx key (ObjectKindM.external cid)])
    else
      (Except.ok (ObjectKindM.internal sample),
       [AddEffect.signTx key (ObjectKindM.internal sample),
        AddEffect.broadcastTx key (ObjectKindM.internal sample)])

/-- On-ledger object descriptor (`fendermint_actor_objectstore::Object`) as
decoded by `get`; the `External` CID bytes are modelled already decoded
(`Cid::try_from` succeeding on a well-formed descriptor). -/
inductive ObjectDesc
  | internal (buf : List Nat)
  | external (cid : CidM) (resolved : Bool)
deriving DecidableEq, Repr

/-- Failure outcomes of `get`: `object not found for key`, `object is not
resolved`, a propagated `parse_range` failure, or a transport error from
the download stream. -/
inductive GetError
  | objectNotFound
  | objectNotResolved
  | rangeError (e : RangeError)
  | downloadFailed (e : String)
deriving DecidableEq, Repr

/-- The externally visible calls `get` makes, in program order:
`sizeQuery` is `provider.size(..)`; `download` is `provider.download(..)`
carrying the verbatim range spec; `write` is a `writer.write_all` of a
chunk to the output sink. -/
inductive GetEffect
  | sizeQuery
  | download (range : Option String)
  | write (bytes : List Nat)
deriving DecidableEq, Repr

/-- The download-stream consumption loop of `get`: each `Ok` chunk is
written to the sink in arrival order; a transport `Err` aborts with
`DownloadFailed`, leaving earlier writes in place (no rollback). -/
def downloadLoop (chunks : List (Except String (List Nat))) :
    Except GetError Unit × List GetEffect :=
  match chunks with
  | [] => (Except.ok (), [])
  | Except.ok chunk :: rest =>
    let r := downloadLoop rest
    (r.1, GetEffect.write chunk :: r.2)
  | Except.error e :: _ => (Except.error (GetError.downloadFailed e), [])

/-- Model of `ObjectStore::get`. `desc` is the decoded descriptor query
response for the key at the requested height (`none` when absent); `range`
is the optional range spec; `chunks` is the byte stream the staging API
returns for a download. `Internal`: apply `parse_range` to the embedded
bytes (whole object when no range) and write the slice `buf[start..=end]`
to the sink. `External`: fail `objectNotResolved` when `resolved = false`
before any size query or download; otherwise query the size, issue the
download with the verbatim range, and stream chunks to the sink. -/
def get (desc : Option ObjectDesc) (range : Option String)
    (chunks : List (Except String (List Nat))) :
    Except GetError Unit × List GetEffect :=
  match desc with
  | none => (Except.error GetError.objectNotFound, [])
  | some (ObjectDesc.internal buf) =>
    match range with
    | some r =>
      match parse_range r buf.length with
      | Except.ok (s, e) =>
        (Except.ok (), [GetEffect.write ((buf.drop s).take (e + 1 - s))])
      | Except.error err => (Except.error (GetError.rangeError err), [])
    | none => (Except.ok (), [GetEffect.write buf])
  | some (ObjectDesc.external _ resolved) =>
    if resolved then
      let dl := downloadLoop chunks
      (dl.1, GetEffect.sizeQuery :: GetEffect.download range :: dl.2)
    else
      (Except.error GetError.objectNotResolved, [])

example :
    add ⟨[7, 8, 9], 0⟩ "k" [] true =
      (Except.ok (ObjectKindM.internal [7, 8, 9]),
       [AddEffect.signTx "k" (ObjectKindM.internal [7, 8, 9]),
        AddEffect.broadcastTx "k" (ObjectKindM.internal [7, 8, 9])]) := by rfl

example : add ⟨[], 0⟩ "k" [] true = (Except.error AddError.emptyObject, []) := by rfl

example :
    get (some (ObjectDesc.internal [])) (some "-") [] =
      (Except.error (GetError.rangeError RangeError.underflow), []) := by rfl

/-! Helper lemmas about the range parser. -/

lemma checkedSub_of_le {a b : Nat} (h : b ≤ a) : checkedSub a b = some (a - b) := by
  unfold checkedSub
  rw [if_pos h]

lemma parseU64_isEmpty_false {p : List Char} {a : Nat}
    (h : parseU64 p = some a) : p.isEmpty = false := by
  cases p with
  | nil => simp [parseU64] at h
  | cons c rest => rfl

lemma parse_range_eq_finalize (t : String) (N : Nat) (p0 p1 : List Char)
    (h : splitOnDash t.data = [p0, p1]) :
    parse_range t N = rangeFinalize N (rangeStartEnd p0 p1 N) := by
  unfold parse_range
  rw [h]

lemma rangeStartEnd_two_sided {p0 p1 : List Char} {A B N : Nat}
    (hA : parseU64 p0 = some A) (hB : parseU64 p1 = some B) :
    rangeStartEnd p0 p1 N = Except.ok (A, B) := by
  unfold rangeStartEnd
  rw [parseU64_isEmpty_false hA, parseU64_isEmpty_false hB, hA, hB]

lemma rangeStartEnd_open_ended {p0 : List Char} {A N : Nat}
    (hA : parseU64 p0 = some A) (hN : 1 ≤ N) :
    rangeStartEnd p0 [] N = Except.ok (A, N - 1) := by
  unfold rangeStartEnd
  rw [parseU64_isEmpty_false hA, hA]
  dsimp only [List.isEmpty_nil]
  rw [checkedSub_of_le hN]

lemma rangeStartEnd_suffix {p1 : List Char} {B N : Nat}
    (hB : parseU64 p1 = some B) (hN : 1 ≤ N) :
    rangeStartEnd [] p1 N =
      if N < B then Except.ok (0, N - 1) else Except.ok (N - B, N - 1) := by
  unfold rangeStartEnd
  rw [parseU64_isEmpty_false hB, hB]
  dsimp only [List.isEmpty_nil]
  by_cases hc : N < B
  · rw [if_pos hc, if_pos hc, checkedSub_of_le hN]
  · rw [if_neg hc, if_neg hc, checkedSub_of_le (Nat.le_of_not_lt hc),
      checkedSub_of_le hN]

lemma rangeStartEnd_bare {N : Nat} (hN : 1 ≤ N) :
    rangeStartEnd [] [] N = Except.ok (0, N - 1) := by
  unfold rangeStartEnd
  dsimp only [List.isEmpty_nil]
  rw [checkedSub_of_le hN]

lemma rangeFinalize_ok {s e N : Nat} (h : s ≤ e ∧ e < N) :
    rangeFinalize N (Except.ok (s, e)) = Except.ok (s, e) := by
  unfold rangeFinalize
  dsimp only
  rw [if_neg (show ¬(s > e ∨ e ≥ N) by omega)]

lemma rangeFinalize_reject {s e N : Nat} (h : s > e ∨ e ≥ N) :
    rangeFinalize N (Except.ok (s, e)) = Except.error RangeError.invalidRange := by
  unfold rangeFinalize
  dsimp only
  rw [if_pos h]

lemma rangeStartEnd_no_underflow (p0 p1 : List Char) (N : Nat) (hN : 1 ≤ N) :
    rangeStartEnd p0 p1 N ≠ Except.error RangeError.underflow := by
  unfold rangeStartEnd
  cases h0 : p0.isEmpty <;> cases h1 : p1.isEmpty <;> dsimp only
  · cases parseU64 p0 <;> cases parseU64 p1 <;> simp
  · cases parseU64 p0 <;> dsimp only
    · simp
    · rw [checkedSub_of_le hN]
      simp
  · cases parseU64 p1 <;> dsimp only
    · simp
    · rename_i last
      by_cases hc : N < last
      · rw [if_pos hc, checkedSub_of_le hN]
        simp
      · rw [if_neg hc, checkedSub_of_le (Nat.le_of_not_lt hc), checkedSub_of_le hN]
        simp
  · rw [checkedSub_of_le hN]
    simp

lemma parse_range_no_underflow (t : String) (N : Nat) (hN : 1 ≤ N) :
    parse_range t N ≠ Except.error RangeError.underflow := by
  unfold parse_range
  rcases hs : splitOnDash t.data with _ | ⟨q0, _ | ⟨q1, _ | ⟨q2, rest⟩⟩⟩ <;> dsimp only
  · simp
  · simp
  · have hne := rangeStartEnd_no_underflow q0 q1 N hN
    unfold rangeFinalize
    cases hr : rangeStartEnd q0 q1 N with
    | ok p =>
      obtain ⟨s, e⟩ := p
      dsimp only
      split <;> simp
    | error err =>
      dsimp only
      rw [hr] at hne
      exact hne
  · simp

lemma parse_range_ok_bounds (t : String) (N a b : Nat)
    (h : parse_range t N = Except.ok (a, b)) : a ≤ b ∧ b < N := by
  unfold parse_range at h
  rcases hs : splitOnDash t.data with _ | ⟨q0, _ | ⟨q1, _ | ⟨q2, rest⟩⟩⟩ <;>
      rw [hs] at h <;> dsimp only at h
  · simp at h
  · simp at h
  · unfold rangeFinalize at h
    cases hr : rangeStartEnd q0 q1 N with
    | ok p =>
      obtain ⟨s, e⟩ := p
      rw [hr] at h
      dsimp only at h
      split at h
      · simp at h
      · rename_i hc
        simp only [Except.ok.injEq, Prod.mk.injEq] at h
        obtain ⟨rfl, rfl⟩ := h
        omega
    | error err =>
      rw [hr] at h
      dsimp only at h
      simp at h
  · simp at h

/-! Claim theorems about the range parser. -/

/-- Claim C1, counterexample: parsing the empty range spec does not return
the whole-object range; `"".split('-')` yields the single piece `[""]`, so
`parse_range("", 1000)` fails with the `invalid range format` error instead
of returning `(0, 999)`. -/
theorem C1_counterexample :
    parse_range "" 1000 = Except.error RangeError.invalidFormat := by rfl

/-- Claim C1 (amended): for every object size `N ≥ 1`, the bare separator
`"-"` parses to the whole-object range `(0, N-1)`, but the empty spec `""`
fails with `InvalidRangeFormat` (its split has one piece, not two). -/
theorem C1_theorem (N : Nat) (hN : 1 ≤ N) :
    parse_range "-" N = Except.ok (0, N - 1) ∧
    parse_range "" N = Except.error RangeError.invalidFormat := by
  constructor
  · have hs : splitOnDash ("-".data) = [[], []] := by rfl
    rw [parse_range_eq_finalize "-" N [] [] hs, rangeStartEnd_bare hN]
    exact rangeFinalize_ok ⟨Nat.zero_le _, by omega⟩
  · rfl

/-- Claim C1 witness: the amended claim at `N = 1000` gives
`parse_range("-", 1000) = (0, 999)` and `parse_range("", 1000)` a format
error. -/
theorem C1_witness :
    parse_range "-" 1000 = Except.ok (0, 999) ∧
    parse_range "" 1000 = Except.error RangeError.invalidFormat :=
  C1_theorem 1000 (by norm_num)

/-- Claim C3, counterexample: the suffix form is not total for every
non-negative `B` — `parse_range("-0", 1000)` computes the raw pair
`(1000, 999)` and the final check rejects it with `invalid range`. -/
theorem C3_counterexample :
    parse_range "-0" 1000 = Except.error RangeError.invalidRange := by rfl

/-- Claim C3 (amended): for object size `N ≥ 1` and a suffix spec `"-B"`
whose token parses as a `u64` value `B ≥ 1`, parsing never fails: if
`B > N` the result is `(0, N-1)` (permissive clamp), else `(N-B, N-1)`.
For `B = 0`, however, the computed pair `(N, N-1)` fails the final
`start > end` check and parsing fails with `InvalidRange`. -/
theorem C3_theorem (N : Nat) (hN : 1 ≤ N) :
    (∀ (t : String) (p1 : List Char) (B : Nat), 1 ≤ B →
      splitOnDash t.data = [[], p1] → parseU64 p1 = some B →
      (N < B → parse_range t N = Except.ok (0, N - 1)) ∧
      (¬N < B → parse_range t N = Except.ok (N - B, N - 1))) ∧
    (∀ (t : String) (p1 : List Char),
      splitOnDash t.data = [[], p1] → parseU64 p1 = some 0 →
      parse_range t N = Except.error RangeError.invalidRange) := by
  constructor
  · intro t p1 B hB hs hp
    rw [parse_range_eq_finalize t N [] p1 hs, rangeStartEnd_suffix hp hN]
    constructor
    · intro hc
      rw [if_pos hc]
      exact rangeFinalize_ok ⟨Nat.zero_le _, by omega⟩
    · intro hc
      rw [if_neg hc]
      exact rangeFinalize_ok ⟨by omega, by omega⟩
  · intro t p1 hs hp
    rw [parse_range_eq_finalize t N [] p1 hs, rangeStartEnd_suffix hp hN,
      if_neg (by omega : ¬N < 0)]
    exact rangeFinalize_reject (by omega)

/-- Claim C3 witness: `parse_range("-100", 1000) = (900, 999)` via the
amended claim. -/
theorem C3_witness : parse_range "-100" 1000 = Except.ok (900, 999) :=
  ((C3_theorem 1000 (by norm_num)).1 "-100" ['1', '0', '0'] 100 (by norm_num)
    (by rfl) (by rfl)).2 (by norm_num)

/-- Claim C4: for object size `N ≥ 1` and a two-sided spec whose split is
`[p0, p1]` with tokens parsing as `u64` values `A` and `B`, `parse_range`
returns `(A, B)` iff `A ≤ B ∧ B < N` and fails with `InvalidRange`
otherwise; moreover every pair any form successfully returns satisfies
`start ≤ end < size`. -/
theorem C4_theorem :
    (∀ (t : String) (p0 p1 : List Char) (A B N : Nat), 1 ≤ N →
      splitOnDash t.data = [p0, p1] →
      parseU64 p0 = some A → parseU64 p1 = some B →
      (A ≤ B ∧ B < N → parse_range t N = Except.ok (A, B)) ∧
      (¬(A ≤ B ∧ B < N) → parse_range t N = Except.error RangeError.invalidRange)) ∧
    (∀ (t : String) (N a b : Nat),
      parse_range t N = Except.ok (a, b) → a ≤ b ∧ b < N) := by
  constructor
  · intro t p0 p1 A B N hN hs hA hB
    rw [parse_range_eq_finalize t N p0 p1 hs, rangeStartEnd_two_sided hA hB]
    constructor
    · intro hok
      exact rangeFinalize_ok hok
    · intro hbad
      exact rangeFinalize_reject (by omega)
  · exact parse_range_ok_bounds

/-- Claim C4 witness: `parse_range("500-100", 1000)` fails with
`InvalidRange` since `500 ≤ 100` does not hold. -/
theorem C4_witness :
    parse_range "500-100" 1000 = Except.error RangeError.invalidRange :=
  (C4_theorem.1 "500-100" ['5', '0', '0'] ['1', '0', '0'] 500 100 1000
    (by norm_num) (by rfl) (by rfl) (by rfl)).2 (by omega)

/-- Claim C10: `parse_range` is total only under `size ≥ 1`. For `size ≥ 1`
no form reaches the underflowing `u64` subtraction, but at `size = 0` the
forms that compute `(_, size - 1)` — the bare `"-"`, the open-ended `"A-"`,
and the suffix `"-B"` (both `B ≤ size` and `B > size`) — hit the unguarded
`size - 1` underflow instead of returning a typed error; and this is
reachable from the public `get` when a range is requested on an `Internal`
descriptor with an empty payload. -/
theorem C10_theorem :
    (∀ (t : String) (N : Nat), 1 ≤ N →
      parse_range t N ≠ Except.error RangeError.underflow) ∧
    parse_range "-" 0 = Except.error RangeError.underflow ∧
    parse_range "0-" 0 = Except.error RangeError.underflow ∧
    parse_range "-0" 0 = Except.error RangeError.underflow ∧
    parse_range "-1" 0 = Except.error RangeError.underflow ∧
    (∀ (chunks : List (Except String (List Nat))),
      get (some (ObjectDesc.internal [])) (some "-") chunks =
        (Except.error (GetError.rangeError RangeError.underflow), [])) :=
  ⟨parse_range_no_underflow, rfl, rfl, rfl, rfl, fun _ => rfl⟩

/-- Claim C10 witness: at size `77 ≥ 1` the spec `"5-9"` cannot produce the
underflow outcome. -/
theorem C10_witness : parse_range "5-9" 77 ≠ Except.error RangeError.underflow :=
  C10_theorem.1 "5-9" 77 (by norm_num)

/-! Helper lemmas about the write path. -/

lemma upload_hasSubnet (key : String) (cid : CidM) (sz : Nat) :
    upload true key cid sz =
      (Except.ok (), [AddEffect.signUploadMsg key cid, AddEffect.announce cid sz]) := rfl

lemma add_internal_eq (data : List Nat) (key : String)
    (events : List (Except String AddProgress)) (hb : Bool)
    (h1 : 1 ≤ data.length) (h2 : data.length ≤ MAX_INTERNAL_OBJECT_LENGTH) :
    add ⟨data, 0⟩ key events hb =
      (Except.ok (ObjectKindM.internal data),
       [AddEffect.signTx key (ObjectKindM.internal data),
        AddEffect.broadcastTx key (ObjectKindM.internal data)]) := by
  have htake : data.take (MAX_INTERNAL_OBJECT_LENGTH + 1) = data :=
    List.take_of_length_le (Nat.le_succ_of_le h2)
  unfold add readerRead readerRewind
  dsimp only
  simp only [List.drop_zero]
  rw [htake, if_neg (by omega : ¬data.length = 0), if_neg (Nat.not_lt.mpr h2)]

lemma add_detached_eq (data : List Nat) (key : String)
    (events : List (Except String AddProgress)) (hb : Bool)
    (h : MAX_INTERNAL_OBJECT_LENGTH < data.length) :
    add ⟨data, 0⟩ key events hb =
      (match ingestLoop events false 0 with
       | IngestOutcome.failure e => (Except.error e, [AddEffect.irohAddReader data])
       | IngestOutcome.success objectSize hash =>
         match (upload hb key (cidOf hash) objectSize).1 with
         | Except.error e =>
           (Except.error e,
            AddEffect.irohAddReader data :: (upload hb key (cidOf hash) objectSize).2)
         | Except.ok _ =>
           (Except.ok (ObjectKindM.external (cidOf hash)),
            AddEffect.irohAddReader data :: (upload hb key (cidOf hash) objectSize).2 ++
              [AddEffect.signTx key (ObjectKindM.external (cidOf hash)),
               AddEffect.broadcastTx key (ObjectKindM.external (cidOf hash))])) := by
  have hlen : (data.take (MAX_INTERNAL_OBJECT_LENGTH + 1)).length
      = MAX_INTERNAL_OBJECT_LENGTH + 1 := by
    rw [List.length_take]
    exact Nat.min_eq_left (Nat.succ_le_of_lt h)
  unfold add readerRead readerRewind
  dsimp only
  simp only [List.drop_zero]
  rw [hlen, if_neg (Nat.succ_ne_zero MAX_INTERNAL_OBJECT_LENGTH),
    if_pos (Nat.lt_succ_self MAX_INTERNAL_OBJECT_LENGTH)]

/-! Claim theorems about the write and read paths. -/

/-- Claim C2: for a non-empty seekable input of `L` bytes read from its
start, the classifier's sample is at most `threshold + 1 = 1025` bytes; if
`L ≤ 1024`, `add` broadcasts a `PutObject` whose descriptor is `Internal`
carrying exactly the `L` input bytes; if `L > 1024` (and the ingest
succeeds and the signer has a subnet id), `add` broadcasts a descriptor
that is `External` carrying the content identifier computed from the
ingest hash. -/
theorem C2_theorem (data : List Nat) (key : String)
    (events : List (Except String AddProgress)) (hb : Bool)
    (hne : 1 ≤ data.length) :
    (readerRead ⟨data, 0⟩ (MAX_INTERNAL_OBJECT_LENGTH + 1)).1.length
        ≤ MAX_INTERNAL_OBJECT_LENGTH + 1 ∧
    (data.length ≤ MAX_INTERNAL_OBJECT_LENGTH →
      add ⟨data, 0⟩ key events hb =
        (Except.ok (ObjectKindM.internal data),
         [AddEffect.signTx key (ObjectKindM.internal data),
          AddEffect.broadcastTx key (ObjectKindM.internal data)])) ∧
    (∀ (sz : Nat) (hash : List Nat),
      MAX_INTERNAL_OBJECT_LENGTH < data.length →
      ingestLoop events false 0 = IngestOutcome.success sz hash →
      (add ⟨data, 0⟩ key events true).1 =
        Except.ok (ObjectKindM.external (cidOf hash)) ∧
      AddEffect.broadcastTx key (ObjectKindM.external (cidOf hash))
        ∈ (add ⟨data, 0⟩ key events true).2) := by
  refine ⟨?_, ?_, ?_⟩
  · exact List.length_take_le _ _
  · intro h2
    exact add_internal_eq data key events hb hne h2
  · intro sz hash hlt hing
    have had := add_detached_eq data key events true hlt
    rw [hing] at had
    dsimp only at had
    rw [upload_hasSubnet key (cidOf hash) sz] at had
    dsimp only at had
    rw [had]
    simp

/-- Claim C5: in a successful detached `add` (ingest succeeds, signer has a
subnet id), the full external-call trace is: blob ingest, signing of the
pre-image, the announce (upload) call to the staging API carrying the final
identifier and the total size, then the `PutObject` signing, then the
broadcast — so every occurrence of the announce call strictly precedes
every occurrence of the broadcast in the trace. -/
theorem C5_theorem (data : List Nat) (key : String)
    (events : List (Except String AddProgress)) (sz : Nat) (hash : List Nat)
    (hlt : MAX_INTERNAL_OBJECT_LENGTH < data.length)
    (hing : ingestLoop events false 0 = IngestOutcome.success sz hash) :
    add ⟨data, 0⟩ key events true =
      (Except.ok (ObjectKindM.external (cidOf hash)),
       [AddEffect.irohAddReader data,
        AddEffect.signUploadMsg key (cidOf hash),
        AddEffect.announce (cidOf hash) sz,
        AddEffect.signTx key (ObjectKindM.external (cidOf hash)),
        AddEffect.broadcastTx key (ObjectKindM.external (cidOf hash))]) ∧
    (∀ (i j : Nat) (c : CidM) (s2 : Nat) (k : String) (kind : ObjectKindM),
      ((add ⟨data, 0⟩ key events true).2)[i]? = some (AddEffect.announce c s2) →
      ((add ⟨data, 0⟩ key events true).2)[j]? = some (AddEffect.broadcastTx k kind) →
      i < j) := by
  have had := add_detached_eq data key events true hlt
  rw [hing] at had
  dsimp only at had
  rw [upload_hasSubnet key (cidOf hash) sz] at had
  dsimp only at had
  simp only [List.cons_append, List.nil_append] at had
  refine ⟨had, ?_⟩
  intro i j c s2 k kind hi hj
  rw [had] at hi hj
  dsimp only at hi hj
  rcases i with _ | _ | _ | _ | _ | i <;> rcases j with _ | _ | _ | _ | _ | j <;>
    simp_all

/-- Claim C5 witness: a concrete successful detached `add` produces the
trace with the announce call (index 2) strictly before the broadcast
(index 4). -/
theorem C5_witness :
    add ⟨List.replicate 1025 0, 0⟩ "k" [Except.ok (AddProgress.allDone [1])] true =
      (Except.ok (ObjectKindM.external (cidOf [1])),
       [AddEffect.irohAddReader (List.replicate 1025 0),
        AddEffect.signUploadMsg "k" (cidOf [1]),
        AddEffect.announce (cidOf [1]) 0,
        AddEffect.signTx "k" (ObjectKindM.external (cidOf [1])),
        AddEffect.broadcastTx "k" (ObjectKindM.external (cidOf [1]))]) :=
  (C5_theorem (List.replicate 1025 0) "k" [Except.ok (AddProgress.allDone [1])] 0 [1]
    (by simp [MAX_INTERNAL_OBJECT_LENGTH]) rfl).1

/-- Claim C6: if the ingest loop of a detached `add` ends with
`Abort(reason)`, `add` fails with the abort error and the only external
call made is the blob ingest itself: no announce call, no pre-image
signing, no `PutObject` signing, and no broadcast. -/
theorem C6_theorem (data : List Nat) (key : String)
    (events : List (Except String AddProgress)) (hb : Bool) (reason : String)
    (hlt : MAX_INTERNAL_OBJECT_LENGTH < data.length)
    (hab : ingestLoop events false 0 =
      IngestOutcome.failure (AddError.uploadAborted reason)) :
    add ⟨data, 0⟩ key events hb =
      (Except.error (AddError.uploadAborted reason),
       [AddEffect.irohAddReader data]) ∧
    (∀ c sz, AddEffect.announce c sz ∉ (add ⟨data, 0⟩ key events hb).2) ∧
    (∀ k c, AddEffect.signUploadMsg k c ∉ (add ⟨data, 0⟩ key events hb).2) ∧
    (∀ k kind, AddEffect.signTx k kind ∉ (add ⟨data, 0⟩ key events hb).2) ∧
    (∀ k kind, AddEffect.broadcastTx k kind ∉ (add ⟨data, 0⟩ key events hb).2) := by
  have had := add_detached_eq data key events hb hlt
  rw [hab] at had
  dsimp only at had
  refine ⟨had, ?_, ?_, ?_, ?_⟩ <;> intro x y <;> rw [had] <;> simp

/-- Claim C6 witness: a concrete detached `add` whose progress stream yields
`Abort("boom")` fails with the abort error after only the ingest call. -/
theorem C6_witness :
    add ⟨List.replicate 1025 0, 0⟩ "k" [Except.ok (AddProgress.abort "boom")] false =
      (Except.error (AddError.uploadAborted "boom"),
       [AddEffect.irohAddReader (List.replicate 1025 0)]) :=
  (C6_theorem (List.replicate 1025 0) "k" [Except.ok (AddProgress.abort "boom")]
    false "boom" (by simp [MAX_INTERNAL_OBJECT_LENGTH]) rfl).1

/-- Claim C7: `get` on an `External` descriptor with `resolved = false`
fails with `objectNotResolved` making no size query, no download request
and no sink write; `get` on an absent descriptor fails with
`objectNotFound`, likewise with an empty call trace. -/
theorem C7_theorem (cid : CidM) (range : Option String)
    (chunks : List (Except String (List Nat))) :
    get (some (ObjectDesc.external cid false)) range chunks =
      (Except.error GetError.objectNotResolved, []) ∧
    get none range chunks = (Except.error GetError.objectNotFound, []) :=
  ⟨rfl, rfl⟩

/-- Claim C8, counterexample: `add` does not rewind the stream to its
original position — it rewinds to absolute position 0. For a reader whose
position was 1 when `add` was called, the position after sampling and
rewinding is 0, not 1, and the detached write path re-reads the whole
underlying buffer instead of the bytes from the original position
(`data.drop 1`). -/
theorem C8_counterexample :
    readerRewind (readerRead ⟨List.replicate 1026 5, 1⟩
        (MAX_INTERNAL_OBJECT_LENGTH + 1)).2 ≠
      (⟨List.replicate 1026 5, 1⟩ : Reader) ∧
    (add ⟨List.replicate 1026 5, 1⟩ "k"
        [Except.ok (AddProgress.allDone [1])] true).2.head? =
      some (AddEffect.irohAddReader (List.replicate 1026 5)) ∧
    List.replicate 1026 (5 : Nat) ≠ List.drop 1 (List.replicate 1026 (5 : Nat)) := by
  refine ⟨?_, by rfl, ?_⟩
  · intro hcontra
    have hpos := congrArg Reader.pos hcontra
    simp [readerRewind] at hpos
  · intro hcontra
    have hlen := congrArg List.length hcontra
    simp at hlen

/-- Claim C8 (amended): after sampling, `add` rewinds the stream to the
beginning (absolute position 0), not to its original position; when the
stream was at position 0 at call time the two coincide, and the detached
write path then re-reads exactly the bytes from the original position. -/
theorem C8_theorem (data : List Nat) (p : Nat) (key : String)
    (events : List (Except String AddProgress)) :
    readerRewind (readerRead ⟨data, p⟩ (MAX_INTERNAL_OBJECT_LENGTH + 1)).2 =
      (⟨data, 0⟩ : Reader) ∧
    (MAX_INTERNAL_OBJECT_LENGTH < data.length →
      (add ⟨data, 0⟩ key events true).2.head? =
        some (AddEffect.irohAddReader data)) := by
  refine ⟨rfl, ?_⟩
  intro h
  rw [add_detached_eq data key events true h]
  cases ingestLoop events false 0 with
  | failure e => rfl
  | success sz hash =>
    dsimp only
    cases hup : (upload true key (cidOf hash) sz).1 <;> rfl

/-- Claim C8 witness: for a stream of 1025 bytes at initial position 3, the
rewind lands at position 0; with the stream at position 0, the detached
path ingests exactly the underlying bytes. -/
theorem C8_witness :
    (add ⟨List.replicate 1025 7, 0⟩ "k"
        [Except.ok (AddProgress.allDone [2])] true).2.head? =
      some (AddEffect.irohAddReader (List.replicate 1025 7)) :=
  (C8_theorem (List.replicate 1025 7) 3 "k" [Except.ok (AddProgress.allDone [2])]).2
    (by simp [MAX_INTERNAL_OBJECT_LENGTH])

/-- Claim C9: when zero bytes are sampled from the input, `add` fails with
`emptyObject` and its call trace is empty — no blob ingest, no announce, no
signing, no broadcast. -/
theorem C9_theorem (r : Reader) (key : String)
    (events : List (Except String AddProgress)) (hb : Bool)
    (h : (readerRead r (MAX_INTERNAL_OBJECT_LENGTH + 1)).1 = []) :
    add r key events hb = (Except.error AddError.emptyObject, []) := by
  unfold add
  dsimp only
  rw [h]
  simp

/-- Claim C9 witness: adding from an empty stream fails with `emptyObject`
and makes no external call. -/
theorem C9_witness :
    add ⟨[], 0⟩ "k" [] true = (Except.error AddError.emptyObject, []) :=
  C9_theorem ⟨[], 0⟩ "k" [] true rfl

/-- Claim C2 witness: a 1-byte input is broadcast as an `Internal`
descriptor carrying exactly that byte. -/
theorem C2_witness :
    add ⟨[3], 0⟩ "k" [] true =
      (Except.ok (ObjectKindM.internal [3]),
       [AddEffect.signTx "k" (ObjectKindM.internal [3]),
        AddEffect.broadcastTx "k" (ObjectKindM.internal [3])]) :=
  (C2_theorem [3] "k" [] true (by decide)).2.1 (by decide)

end RustRecall
